import Mathlib

/-!
Shallow embedding of the FRC 2026 REBUILT match-simulation core
(`src/models.py`, `src/config.py`, `src/field.py`, `src/robot.py`,
`src/match_engine.py`) together with theorems settling the frozen claims
about the Field Resource Ledger, the Robot Behavior Engine and the Match
Orchestrator.

Modelling conventions:
* Python `int` counters become `Int` (they are never masked or wrapped).
* Python `float` time stamps and rates become `ℚ`.  Every float constant
  used by the embedded code paths (`0.5`, `1.5`, `3.0`, `0.25`, `0.20`,
  `0.15`) is mapped to the exact rational it denotes in the source text;
  for the one place a binary-float constant feeds an `Int` conversion
  (`math.floor(actual_moved * PUSH_SCATTER_RATE)`) the rational `1/5`
  produces the same floor as the IEEE double nearest `0.20` for every
  reachable fuel count (0 ≤ n ≤ 60), so the embedding is exact there too.
* Robot identifiers are Python strings compared only for equality and
  list membership; they are embedded as `Nat`.
* The per-match pseudorandom stream is embedded as an explicit argument:
  a list or function of rational draws in `[0,1)` standing for successive
  `rng.random()` results, and an explicit gauss sample where
  `rng.gauss(..)` is consumed.
-/

namespace FRCSim

/-- models.Alliance. -/
inductive Alliance where
  | red
  | blue
deriving DecidableEq, Repr

/-- The opposing alliance. -/
def Alliance.other : Alliance → Alliance
  | .red => .blue
  | .blue => .red

/-- models.Phase. -/
inductive Phase where
  | auto
  | transition
  | shift1
  | shift2
  | shift3
  | shift4
  | endgame
deriving DecidableEq, Repr

/-- models.RobotZone. -/
inductive RobotZone where
  | alliance
  | midfield
  | neutral
  | hub
  | tower
  | outpost
  | opponent_zone
  | trench
deriving DecidableEq, Repr

/-- models.RobotAction. -/
inductive RobotAction where
  | idle
  | intaking
  | driving
  | shooting
  | climbing
  | defending
  | stockpiling
  | pre_positioning
  | dumping
  | pushing_fuel
  | clearing_jam
  | waiting_for_fuel
deriving DecidableEq, Repr

/-- models.ShooterType. -/
inductive ShooterType where
  | single_turret
  | double_fixed
  | triple_fixed
  | single_fixed
  | dumper
  | none
deriving DecidableEq, Repr

/-- models.TurretStatus. -/
inductive TurretStatus where
  | nominal
  | stuck
deriving DecidableEq, Repr

/-- The `from_zone` strings understood by FieldManager.push_fuel:
`"neutral"`, `"outpost"`, and any other string (all other strings take
the same `return 0` branch in the source). -/
inductive PushZone where
  | neutral
  | outpost
  | other
deriving DecidableEq, Repr

/- config.py constants used by the embedded code paths. -/

/-- config.TOTAL_FUEL. -/
def TOTAL_FUEL : Int := 60

/-- config.INITIAL_NEUTRAL_FUEL. -/
def INITIAL_NEUTRAL_FUEL : Int := 20

/-- config.INITIAL_OUTPOST_FUEL (per alliance). -/
def INITIAL_OUTPOST_FUEL : Int := 10

/-- config.MAX_TOWER_OCCUPANTS (per alliance tower). -/
def MAX_TOWER_OCCUPANTS : Nat := 3

/-- config.PUSH_FUEL_PER_TRIP. -/
def PUSH_FUEL_PER_TRIP : Int := 5

/-- config.PUSH_SCATTER_RATE (source text `0.20`). -/
def PUSH_SCATTER_RATE : ℚ := 1 / 5

/-- config.TICK_INTERVAL (seconds per simulation tick). -/
def TICK_INTERVAL : ℚ := 1 / 2

/-- config.FUEL_HUB_TRANSIT_TIME. -/
def FUEL_HUB_TRANSIT_TIME : ℚ := 3 / 2

/-- config.FUEL_MISS_RECOVERY_TIME. -/
def FUEL_MISS_RECOVERY_TIME : ℚ := 3

/-- config.FUEL_ACTIVE_HUB_POINTS. -/
def FUEL_ACTIVE_HUB_POINTS : Int := 1

/-- config.FIXED_ALIGN_TIME (seconds to rotate a fixed shooter). -/
def FIXED_ALIGN_TIME : ℚ := 3 / 2

/-- config.TURRET_ALIGN_TIME. -/
def TURRET_ALIGN_TIME : ℚ := 0

/-- config.DEGRADED_INTAKE_SPEED_MULT. -/
def DEGRADED_INTAKE_SPEED_MULT : ℚ := 1 / 2

/-- models.RobotState, restricted to the fields read or written by the
embedded operations (the remaining fields of the Python dataclass are
robot-local bookkeeping that none of the embedded ledger or scoring code
touches). -/
structure RobotState where
  id : Nat
  alliance : Alliance
  position : RobotZone
  fuel_held : Int
  fuel_being_pushed : Int
  current_action : RobotAction
  is_pushing_fuel : Bool
deriving DecidableEq, Repr

/-- models.FieldState. -/
structure FieldState where
  neutral_fuel_available : Int
  red_outpost_fuel : Int
  blue_outpost_fuel : Int
  fuel_in_flight : Int
  fuel_in_transit : Int
  transit_queue : List (ℚ × Int)
  red_tower_occupants : List Nat
  blue_tower_occupants : List Nat
  congestion_red_hub : ℚ
  congestion_blue_hub : ℚ
deriving DecidableEq, Repr

/-- models.FieldState.total_fuel_check: the conservation sum. -/
def FieldState.total_fuel_check (s : FieldState) (robots : List RobotState) : Int :=
  s.neutral_fuel_available + s.red_outpost_fuel + s.blue_outpost_fuel
    + s.fuel_in_flight + s.fuel_in_transit
    + (robots.map (fun r => r.fuel_held + r.fuel_being_pushed)).sum

/-- FieldManager.__init__: the match-start field configuration. -/
def initial_field : FieldState where
  neutral_fuel_available := INITIAL_NEUTRAL_FUEL
  red_outpost_fuel := INITIAL_OUTPOST_FUEL
  blue_outpost_fuel := INITIAL_OUTPOST_FUEL
  fuel_in_flight := 0
  fuel_in_transit := 0
  transit_queue := []
  red_tower_occupants := []
  blue_tower_occupants := []
  congestion_red_hub := 0
  congestion_blue_hub := 0

/-- FieldManager.fuel_shot. -/
def fuel_shot (s : FieldState) (count : Int) : FieldState :=
  if count ≤ 0 then s
  else { s with fuel_in_flight := s.fuel_in_flight + count }

/-- FieldManager.fuel_scored.  The alliance argument is accepted (as in the
source) but only the pool bookkeeping depends on the count and time. -/
def fuel_scored (s : FieldState) (_alliance : Alliance) (count : Int)
    (current_time : ℚ) : FieldState :=
  if count ≤ 0 then s
  else
    { s with
      fuel_in_flight := s.fuel_in_flight - count
      fuel_in_transit := s.fuel_in_transit + count
      transit_queue := s.transit_queue ++ [(current_time + FUEL_HUB_TRANSIT_TIME, count)] }

/-- FieldManager.fuel_missed. -/
def fuel_missed (s : FieldState) (count : Int) (current_time : ℚ) : FieldState :=
  if count ≤ 0 then s
  else
    { s with
      fuel_in_flight := s.fuel_in_flight - count
      fuel_in_transit := s.fuel_in_transit + count
      transit_queue := s.transit_queue ++ [(current_time + FUEL_MISS_RECOVERY_TIME, count)] }

/-- FieldManager.try_intake.  The source normalises the zone argument to a
string; `"neutral"`, `"alliance"` and `"midfield"` draw from the neutral
pool, `"outpost"` draws from the requesting alliance's outpost, and every
other zone string falls back to the neutral pool.  Returns the new state
and the fuel actually granted. -/
def try_intake (s : FieldState) (alliance : Alliance) (zone : RobotZone)
    (amount : Int) : FieldState × Int :=
  if amount ≤ 0 then (s, 0)
  else
    match zone with
    | .neutral | .alliance | .midfield =>
        let actual := min amount s.neutral_fuel_available
        ({ s with neutral_fuel_available := s.neutral_fuel_available - actual }, actual)
    | .outpost =>
        match alliance with
        | .red =>
            let actual := min amount s.red_outpost_fuel
            ({ s with red_outpost_fuel := s.red_outpost_fuel - actual }, actual)
        | .blue =>
            let actual := min amount s.blue_outpost_fuel
            ({ s with blue_outpost_fuel := s.blue_outpost_fuel - actual }, actual)
    | _ =>
        let actual := min amount s.neutral_fuel_available
        ({ s with neutral_fuel_available := s.neutral_fuel_available - actual }, actual)

/-- The pool FieldManager.try_intake reads `available` from for a given
(alliance, zone) request. -/
def zone_available (s : FieldState) (alliance : Alliance) (zone : RobotZone) : Int :=
  match zone with
  | .outpost =>
      match alliance with
      | .red => s.red_outpost_fuel
      | .blue => s.blue_outpost_fuel
  | _ => s.neutral_fuel_available

/-- FieldManager.push_fuel.  Both executing source branches
(`from_zone == "neutral"` and `from_zone == "outpost"`) draw from the
neutral pool; any other `from_zone` returns 0 without mutation.  Scatter
loss is floored, scattered fuel is added back to the neutral pool, and
arrived fuel also lands in the neutral pool (the destination zones are
conceptual).  Returns the new state and the arrived count. -/
def push_fuel (s : FieldState) (from_zone : PushZone) (_to_zone : PushZone)
    (amount : Int) : FieldState × Int :=
  if amount ≤ 0 then (s, 0)
  else
    match from_zone with
    | .other => (s, 0)
    | _ =>
        let available := s.neutral_fuel_available
        let actual_moved := min amount available
        let s1 := { s with neutral_fuel_available := s.neutral_fuel_available - actual_moved }
        if actual_moved ≤ 0 then (s1, 0)
        else
          let scattered := Int.floor ((actual_moved : ℚ) * PUSH_SCATTER_RATE)
          let arrived := actual_moved - scattered
          let s2 := { s1 with neutral_fuel_available := s1.neutral_fuel_available + scattered }
          let s3 := { s2 with neutral_fuel_available := s2.neutral_fuel_available + arrived }
          (s3, arrived)

/-- The amount push_fuel actually draws from its source pool, by the same
case analysis as the source. -/
def push_actual_moved (s : FieldState) (from_zone : PushZone) (amount : Int) : Int :=
  if amount ≤ 0 then 0
  else
    match from_zone with
    | .other => 0
    | _ => min amount s.neutral_fuel_available

/-- FieldManager.hp_feed: move one fuel from the alliance outpost to the
caller (who credits a robot), failing closed on an empty outpost. -/
def hp_feed (s : FieldState) (alliance : Alliance) : FieldState × Bool :=
  match alliance with
  | .red =>
      if s.red_outpost_fuel ≤ 0 then (s, false)
      else ({ s with red_outpost_fuel := s.red_outpost_fuel - 1 }, true)
  | .blue =>
      if s.blue_outpost_fuel ≤ 0 then (s, false)
      else ({ s with blue_outpost_fuel := s.blue_outpost_fuel - 1 }, true)

/-- The outpost counter belonging to an alliance. -/
def outpost_of (s : FieldState) (alliance : Alliance) : Int :=
  match alliance with
  | .red => s.red_outpost_fuel
  | .blue => s.blue_outpost_fuel

/-- The tower occupancy list belonging to an alliance. -/
def occupants_of (s : FieldState) (alliance : Alliance) : List Nat :=
  match alliance with
  | .red => s.red_tower_occupants
  | .blue => s.blue_tower_occupants

/-- FieldManager.can_climb. -/
def can_climb (s : FieldState) (alliance : Alliance) (robot_id : Nat) : Bool :=
  let occupants := occupants_of s alliance
  if robot_id ∈ occupants then true
  else decide (occupants.length < MAX_TOWER_OCCUPANTS)

/-- FieldManager.register_climb: append the robot to the alliance tower
occupancy list unless it is already present. -/
def register_climb (s : FieldState) (alliance : Alliance) (robot_id : Nat) : FieldState :=
  match alliance with
  | .red =>
      if robot_id ∈ s.red_tower_occupants then s
      else { s with red_tower_occupants := s.red_tower_occupants ++ [robot_id] }
  | .blue =>
      if robot_id ∈ s.blue_tower_occupants then s
      else { s with blue_tower_occupants := s.blue_tower_occupants ++ [robot_id] }

/-- FieldManager._process_transit_queue: release every pending-return entry
whose arrival time has elapsed into the neutral pool, keeping the rest in
order.  The fold carries (neutral delta applied, transit delta applied,
still-pending list) exactly as the source loop does. -/
def process_transit_queue (s : FieldState) (current_time : ℚ) : FieldState :=
  let step := fun (acc : FieldState × List (ℚ × Int)) (e : ℚ × Int) =>
    if e.1 ≤ current_time then
      ({ acc.1 with
          neutral_fuel_available := acc.1.neutral_fuel_available + e.2
          fuel_in_transit := acc.1.fuel_in_transit - e.2 }, acc.2)
    else (acc.1, acc.2 ++ [e])
  let r := s.transit_queue.foldl step (s, [])
  { r.1 with transit_queue := r.2 }

/-- Robot._complete_push_trip (robot.py).  The source draws
`PUSH_FUEL_PER_TRIP` fuel out of the neutral zone through
`field_manager.try_intake`, computes a scattered and a net amount, and then
attempts `field_manager.return_fuel_to_field(scattered)` and
`field_manager.add_fuel_to_alliance_zone(alliance, net_pushed)` — but both
calls are guarded by `hasattr`, and FieldManager defines neither method, so
neither call executes; the scattered and net quantities feed only the
skipped calls and a robot-local statistics counter.  The robot's
`fuel_being_pushed` is set to 0 and it returns to idle. -/
def complete_push_trip (fm : FieldState) (a : Alliance) (r : RobotState) :
    FieldState × RobotState :=
  let res := try_intake fm a RobotZone.neutral PUSH_FUEL_PER_TRIP
  (res.1,
    { r with
        fuel_being_pushed := 0
        current_action := RobotAction.idle
        is_pushing_fuel := false })

/-- A red pusher robot at the moment its push-trip timer expires (role
PUSH_FUEL, preloaded with 4 fuel during auto). -/
def pusher_robot : RobotState where
  id := 0
  alliance := Alliance.red
  position := RobotZone.neutral
  fuel_held := 4
  fuel_being_pushed := 0
  current_action := RobotAction.pushing_fuel
  is_pushing_fuel := true

/-- The five remaining robots of a demonstration match, holding the rest of
the 10-per-alliance preload (red: 4+3+3, blue: 4+3+3), so that the
conservation sum is exactly TOTAL_FUEL at the start. -/
def other_robots : List RobotState :=
  [ { id := 1, alliance := Alliance.red, position := RobotZone.alliance,
      fuel_held := 3, fuel_being_pushed := 0,
      current_action := RobotAction.idle, is_pushing_fuel := false },
    { id := 2, alliance := Alliance.red, position := RobotZone.alliance,
      fuel_held := 3, fuel_being_pushed := 0,
      current_action := RobotAction.idle, is_pushing_fuel := false },
    { id := 3, alliance := Alliance.blue, position := RobotZone.alliance,
      fuel_held := 4, fuel_being_pushed := 0,
      current_action := RobotAction.idle, is_pushing_fuel := false },
    { id := 4, alliance := Alliance.blue, position := RobotZone.alliance,
      fuel_held := 3, fuel_being_pushed := 0,
      current_action := RobotAction.idle, is_pushing_fuel := false },
    { id := 5, alliance := Alliance.blue, position := RobotZone.alliance,
      fuel_held := 3, fuel_being_pushed := 0,
      current_action := RobotAction.idle, is_pushing_fuel := false } ]

/- Match Orchestrator: auto winner and hub activation (match_engine.py). -/

/-- MatchEngine._determine_auto_winner: the alliance that scored strictly
more fuel during Auto wins; an exact tie defaults to red. -/
def determine_auto_winner (red_auto_score blue_auto_score : Int) : Alliance :=
  if red_auto_score > blue_auto_score then Alliance.red
  else if blue_auto_score > red_auto_score then Alliance.blue
  else Alliance.red

/-- MatchEngine._update_hub_activation: returns
(red_hub_active, blue_hub_active) for a shift phase.  The winner's hub is
active exactly on shifts 2 and 4; the other alliance's hub has the
complementary activity. -/
def update_hub_activation (winner : Alliance) (phase : Phase) : Bool × Bool :=
  let winner_active : Bool := phase == Phase.shift2 || phase == Phase.shift4
  let loser_active : Bool := !winner_active
  match winner with
  | .red => (winner_active, loser_active)
  | .blue => (loser_active, winner_active)

/-- Project an (red_hub_active, blue_hub_active) pair onto one alliance. -/
def hub_active_for (a : Alliance) (h : Bool × Bool) : Bool :=
  match a with
  | .red => h.1
  | .blue => h.2

/- Shot resolution (MatchEngine._resolve_shooting). -/

/-- Python `int(x + 0.5)` for x ≥ 0: round half up. -/
def round_half_up (x : ℚ) : Int := Int.floor (x + 1 / 2)

/-- The number of fuel units MatchEngine._resolve_shooting resolves in one
tick for an eligible robot:
`min(state.fuel_held, max(1, int(rate * TICK_INTERVAL + 0.5)))`. -/
def fuel_units_this_tick (held : Int) (rate : ℚ) : Int :=
  min held (max 1 (round_half_up (rate * TICK_INTERVAL)))

/-- The inner per-unit loop of MatchEngine._resolve_shooting: for each of
the `n` trials, break if the robot has no fuel, otherwise decrement
`fuel_held`, notify the ledger via `fuel_shot 1`, and run one Bernoulli
trial (`rng.random() < accuracy`) counting a hit or a miss.  `draws` is
the robot-independent match rng stream, one rational draw per trial. -/
def shot_trials (accuracy : ℚ) (draws : Nat → ℚ) :
    Nat → FieldState → Int → Int → Int → FieldState × Int × Int × Int
  | 0, s, held, hits, misses => (s, held, hits, misses)
  | n + 1, s, held, hits, misses =>
      if held ≤ 0 then (s, held, hits, misses)
      else
        shot_trials accuracy (fun i => draws (i + 1)) n
          (fuel_shot s 1) (held - 1)
          (if draws 0 < accuracy then hits + 1 else hits)
          (if draws 0 < accuracy then misses else misses + 1)

/-- Number of hits among the first `n` Bernoulli draws at a given accuracy. -/
def hit_count (accuracy : ℚ) (draws : Nat → ℚ) (n : Nat) : Int :=
  ((List.range n).countP (fun i => decide (draws i < accuracy)) : Int)

/-- MatchEngine._resolve_shooting, restricted to one robot: skip robots not
shooting/dumping, without fuel, or with a non-positive rate; otherwise
resolve `min(held, max(1, int(rate*TICK_INTERVAL + 0.5)))` units through
the per-unit loop, then route hits through fuel_scored and misses through
fuel_missed (each is a no-op for a zero count, matching the source's
`if hits > 0` / `if misses > 0` guards), and award
`hits * FUEL_ACTIVE_HUB_POINTS` points and `hits` fuel-scored counts only
when the alliance's hub is active.  Returns
(field state, remaining fuel_held, points awarded, fuel-scored credit). -/
def resolve_shooting_robot (s : FieldState) (elapsed : ℚ) (a : Alliance)
    (action : RobotAction) (held : Int) (rate accuracy : ℚ)
    (hub_active : Bool) (draws : Nat → ℚ) : FieldState × Int × Int × Int :=
  if ¬(action = RobotAction.shooting ∨ action = RobotAction.dumping) then (s, held, 0, 0)
  else if held ≤ 0 then (s, held, 0, 0)
  else if rate ≤ 0 then (s, held, 0, 0)
  else
    let fuel_this_tick := fuel_units_this_tick held rate
    let r := shot_trials accuracy draws fuel_this_tick.toNat s held 0 0
    let s1 := r.1
    let held1 := r.2.1
    let hits := r.2.2.1
    let misses := r.2.2.2
    let s2 := fuel_scored s1 a hits elapsed
    let s3 := fuel_missed s2 misses elapsed
    if hub_active then (s3, held1, hits * FUEL_ACTIVE_HUB_POINTS, hits)
    else (s3, held1, 0, 0)

/- Scoring-cycle timing (robot.py). -/

/-- Robot._start_scoring_cycle's duration draw:
`max(cycle_time_mean * 0.5, gauss_sample)` where the gauss sample is drawn
from the archetype's mean/stddev (the sample is an explicit argument
here). -/
def scoring_cycle_time (cycle_time_mean gauss_sample : ℚ) : ℚ :=
  max (cycle_time_mean * (1 / 2)) gauss_sample

/-- Robot._start_drive_to_fuel: the drive-to-fuel sub-phase gets 25% of the
total cycle time. -/
def drive_to_fuel_time (total_cycle : ℚ) : ℚ := total_cycle * (1 / 4)

/-- Robot._begin_drive_to_hub: the drive-to-hub sub-phase gets 20% of the
total cycle time. -/
def drive_to_hub_time (cycle_total_time : ℚ) : ℚ := cycle_total_time * (1 / 5)

/-- robot._align_time_for_shooter: turret shooters align in 0 s unless the
turret is stuck (then FIXED_ALIGN_TIME); dumpers take 0 s; all fixed
variants take FIXED_ALIGN_TIME. -/
def align_time_for_shooter (shooter_type : ShooterType)
    (turret_status : TurretStatus) : ℚ :=
  match shooter_type with
  | .single_turret =>
      match turret_status with
      | .stuck => FIXED_ALIGN_TIME
      | .nominal => TURRET_ALIGN_TIME
  | .dumper => 0
  | _ => FIXED_ALIGN_TIME

/-- Robot._begin_intake's action timer: `fuel_picked / effective_rate`
(halved when the intake is degraded), with TICK_INTERVAL as both the
zero-progress fallback and a lower clamp. -/
def intake_action_time (fuel_picked : Int) (intake_rate : ℚ)
    (degraded : Bool) : ℚ :=
  let effective_rate := if degraded then intake_rate * DEGRADED_INTAKE_SPEED_MULT
                        else intake_rate
  if 0 < effective_rate ∧ 0 < fuel_picked then
    max ((fuel_picked : ℚ) / effective_rate) TICK_INTERVAL
  else TICK_INTERVAL

/-- Robot._begin_shooting's action timer for the non-jam path:
`fuel_held / rate` where a degraded shooter keeps 67% of its rate. -/
def shoot_action_time (fuel_held : Int) (shoot_rate : ℚ)
    (degraded : Bool) : ℚ :=
  let rate := if degraded then shoot_rate * (67 / 100) else shoot_rate
  (fuel_held : ℚ) / rate

/-- Apply a sequence of register_climb operations (alliance, robot id) in
order, as MatchEngine._resolve_tower_climbing does for each climbed
robot. -/
def apply_registers (ops : List (Alliance × Nat)) (s : FieldState) : FieldState :=
  ops.foldl (fun t op => register_climb t op.1 op.2) s

/-- The robot ids a sequence of register operations registers on a given
alliance's tower. -/
def ids_of (a : Alliance) (ops : List (Alliance × Nat)) : List Nat :=
  ops.filterMap (fun op => if op.1 = a then some op.2 else none)

/-- A field whose outposts have been emptied by human-player actions. -/
def depleted_field : FieldState :=
  { initial_field with red_outpost_fuel := 0, blue_outpost_fuel := 0 }

/-! Theorems settling the claims. -/

/-- C1: the spec claims the fuel conservation sum equals TOTAL_FUEL (60)
at every tick boundary of every seeded match, including after every
ledger-mutating operation.  The code violates it: completing a push trip
draws PUSH_FUEL_PER_TRIP (5) fuel out of the neutral zone through
try_intake and never returns it, because Robot._complete_push_trip's
return calls are hasattr-guarded against methods FieldManager does not
define.  Starting from the match-start distribution (sum = 60), one
completed push trip leaves the conservation sum at 55. -/
theorem push_trip_breaks_conservation :
    initial_field.total_fuel_check (pusher_robot :: other_robots) = TOTAL_FUEL ∧
    (complete_push_trip initial_field Alliance.red pusher_robot).1.total_fuel_check
        ((complete_push_trip initial_field Alliance.red pusher_robot).2 :: other_robots)
      = 55 ∧
    (55 : Int) ≠ TOTAL_FUEL := by
  decide

/-- C10: fuel_shot, fuel_scored and fuel_missed with a non-positive count
leave the whole field state unchanged: no pool counter moves and nothing
is appended to the transit queue. -/
theorem nonpositive_counts_leave_state_unchanged (s : FieldState) (c : Int)
    (a : Alliance) (t : ℚ) (hc : c ≤ 0) :
    fuel_shot s c = s ∧ fuel_scored s a c t = s ∧ fuel_missed s c t = s := by
  refine ⟨?_, ?_, ?_⟩ <;> simp [fuel_shot, fuel_scored, fuel_missed, hc]

/-- Witness for C10 at count -3 on the initial field. -/
theorem nonpositive_counts_leave_state_unchanged_witness :
    fuel_shot initial_field (-3) = initial_field ∧
    fuel_scored initial_field Alliance.red (-3) 0 = initial_field ∧
    fuel_missed initial_field (-3) 0 = initial_field :=
  nonpositive_counts_leave_state_unchanged initial_field (-3) Alliance.red 0 (by decide)

/-- C9: hp_feed returns false and leaves the whole field state unchanged
exactly when the team's outpost count is zero or less; otherwise it
decrements that team's outpost by exactly one, leaves every other
field-state component unchanged, and returns true. -/
theorem hp_feed_fail_closed (s : FieldState) (a : Alliance) :
    (outpost_of s a ≤ 0 → hp_feed s a = (s, false)) ∧
    (0 < outpost_of s a →
      (hp_feed s a).2 = true ∧
      outpost_of (hp_feed s a).1 a = outpost_of s a - 1 ∧
      outpost_of (hp_feed s a).1 a.other = outpost_of s a.other ∧
      (hp_feed s a).1.neutral_fuel_available = s.neutral_fuel_available ∧
      (hp_feed s a).1.fuel_in_flight = s.fuel_in_flight ∧
      (hp_feed s a).1.fuel_in_transit = s.fuel_in_transit ∧
      (hp_feed s a).1.transit_queue = s.transit_queue ∧
      (hp_feed s a).1.red_tower_occupants = s.red_tower_occupants ∧
      (hp_feed s a).1.blue_tower_occupants = s.blue_tower_occupants ∧
      (hp_feed s a).1.congestion_red_hub = s.congestion_red_hub ∧
      (hp_feed s a).1.congestion_blue_hub = s.congestion_blue_hub) := by
  cases a <;> refine ⟨fun h => ?_, fun h => ?_⟩
  · simp only [outpost_of] at h
    simp [hp_feed, if_pos h]
  · simp only [outpost_of] at h
    have h' : ¬ (s.red_outpost_fuel ≤ 0) := by omega
    simp [hp_feed, outpost_of, Alliance.other, if_neg h']
  · simp only [outpost_of] at h
    simp [hp_feed, if_pos h]
  · simp only [outpost_of] at h
    have h' : ¬ (s.blue_outpost_fuel ≤ 0) := by omega
    simp [hp_feed, outpost_of, Alliance.other, if_neg h']

/-- Witness for C9: a stocked outpost feeds (red, initial field) and an
empty outpost fails closed (red, depleted field). -/
theorem hp_feed_fail_closed_witness :
    ((hp_feed initial_field Alliance.red).2 = true ∧
      outpost_of (hp_feed initial_field Alliance.red).1 Alliance.red
        = outpost_of initial_field Alliance.red - 1 ∧
      outpost_of (hp_feed initial_field Alliance.red).1 Alliance.red.other
        = outpost_of initial_field Alliance.red.other ∧
      (hp_feed initial_field Alliance.red).1.neutral_fuel_available
        = initial_field.neutral_fuel_available ∧
      (hp_feed initial_field Alliance.red).1.fuel_in_flight
        = initial_field.fuel_in_flight ∧
      (hp_feed initial_field Alliance.red).1.fuel_in_transit
        = initial_field.fuel_in_transit ∧
      (hp_feed initial_field Alliance.red).1.transit_queue
        = initial_field.transit_queue ∧
      (hp_feed initial_field Alliance.red).1.red_tower_occupants
        = initial_field.red_tower_occupants ∧
      (hp_feed initial_field Alliance.red).1.blue_tower_occupants
        = initial_field.blue_tower_occupants ∧
      (hp_feed initial_field Alliance.red).1.congestion_red_hub
        = initial_field.congestion_red_hub ∧
      (hp_feed initial_field Alliance.red).1.congestion_blue_hub
        = initial_field.congestion_blue_hub) ∧
    hp_feed depleted_field Alliance.red = (depleted_field, false) :=
  ⟨(hp_feed_fail_closed initial_field Alliance.red).2 (by decide),
    (hp_feed_fail_closed depleted_field Alliance.red).1 (by decide)⟩

/-- C2: try_intake fails closed.  When the request exceeds the zone's
available count it grants exactly the available count, never more and
never a negative amount; when the request is within the available count it
grants exactly the request; the grant is always within [0, amount]; and
the zone the request reads from is decremented by exactly the granted
amount. -/
theorem try_intake_fail_closed (s : FieldState) (a : Alliance) (z : RobotZone)
    (amount : Int) (havail : 0 ≤ zone_available s a z) (hamt : 0 ≤ amount) :
    (zone_available s a z < amount →
      (try_intake s a z amount).2 = zone_available s a z) ∧
    (amount ≤ zone_available s a z → (try_intake s a z amount).2 = amount) ∧
    0 ≤ (try_intake s a z amount).2 ∧
    (try_intake s a z amount).2 ≤ amount ∧
    zone_available (try_intake s a z amount).1 a z
      = zone_available s a z - (try_intake s a z amount).2 := by
  cases z <;> cases a <;>
    simp_all [try_intake, zone_available] <;>
    split_ifs <;>
    simp_all <;>
    omega

/-- Witness for C2: requesting 25 from the neutral zone (20 available) of
the initial field. -/
theorem try_intake_fail_closed_witness :
    (zone_available initial_field Alliance.red RobotZone.neutral < 25 →
      (try_intake initial_field Alliance.red RobotZone.neutral 25).2
        = zone_available initial_field Alliance.red RobotZone.neutral) ∧
    (25 ≤ zone_available initial_field Alliance.red RobotZone.neutral →
      (try_intake initial_field Alliance.red RobotZone.neutral 25).2 = 25) ∧
    0 ≤ (try_intake initial_field Alliance.red RobotZone.neutral 25).2 ∧
    (try_intake initial_field Alliance.red RobotZone.neutral 25).2 ≤ 25 ∧
    zone_available (try_intake initial_field Alliance.red RobotZone.neutral 25).1
        Alliance.red RobotZone.neutral
      = zone_available initial_field Alliance.red RobotZone.neutral
        - (try_intake initial_field Alliance.red RobotZone.neutral 25).2 :=
  try_intake_fail_closed initial_field Alliance.red RobotZone.neutral 25
    (by decide) (by decide)

/-- C3: for every push_fuel call, the amount drawn from the source pool is
at most the request and at most the pool's available count; the scattered
fuel (the floored scatter-loss fraction of the amount drawn) plus the
arrived fuel equals the amount drawn; the returned value is the arrived
amount (the second component here); the neutral pool ends exactly where it
started (scattered and arrived fuel both land back in it), so no fuel is
destroyed: the conservation sum is unchanged. -/
theorem push_fuel_scatter_conservation (s : FieldState) (fz tz : PushZone)
    (amount : Int) (robots : List RobotState)
    (hn : 0 ≤ s.neutral_fuel_available) (ha : 0 ≤ amount) :
    push_actual_moved s fz amount ≤ amount ∧
    push_actual_moved s fz amount ≤ s.neutral_fuel_available ∧
    Int.floor ((push_actual_moved s fz amount : ℚ) * PUSH_SCATTER_RATE)
        + (push_fuel s fz tz amount).2
      = push_actual_moved s fz amount ∧
    (push_fuel s fz tz amount).1.neutral_fuel_available
      = s.neutral_fuel_available ∧
    (push_fuel s fz tz amount).1.total_fuel_check robots
      = s.total_fuel_check robots := by
  cases fz
  case other =>
    simp only [push_fuel, push_actual_moved]
    split_ifs <;> exact ⟨by omega, by omega, by norm_num, rfl, rfl⟩
  all_goals
    simp only [push_fuel, push_actual_moved]
    split_ifs with h1 h2
    · exact ⟨by omega, by omega, by norm_num, rfl, rfl⟩
    · have hm : min amount s.neutral_fuel_available = 0 := by omega
      rw [hm]
      refine ⟨by omega, by omega, by norm_num, ?_, ?_⟩
      · try dsimp only
        omega
      · simp only [FieldState.total_fuel_check]
        try dsimp only
        omega
    · refine ⟨by omega, by omega, ?_, ?_, ?_⟩
      · try dsimp only
        omega
      · try dsimp only
        omega
      · simp only [FieldState.total_fuel_check]
        try dsimp only
        omega

/-- Witness for C3: pushing 7 from the neutral zone of the initial field
(20 available): 7 moved, 1 scatters, 6 arrive, pool restored. -/
theorem push_fuel_scatter_conservation_witness :
    push_actual_moved initial_field PushZone.neutral 7 ≤ 7 ∧
    push_actual_moved initial_field PushZone.neutral 7
      ≤ initial_field.neutral_fuel_available ∧
    Int.floor ((push_actual_moved initial_field PushZone.neutral 7 : ℚ)
          * PUSH_SCATTER_RATE)
        + (push_fuel initial_field PushZone.neutral PushZone.other 7).2
      = push_actual_moved initial_field PushZone.neutral 7 ∧
    (push_fuel initial_field PushZone.neutral PushZone.other 7).1.neutral_fuel_available
      = initial_field.neutral_fuel_available ∧
    (push_fuel initial_field PushZone.neutral PushZone.other 7).1.total_fuel_check []
      = initial_field.total_fuel_check [] :=
  push_fuel_scatter_conservation initial_field PushZone.neutral PushZone.other 7 []
    (by decide) (by decide)

/-- C4: at the Auto-to-Transition boundary the team with strictly more
Auto fuel becomes the Auto winner, an exact tie defaulting to red; and for
every shift the winner's hub is active exactly on shifts 2 and 4 (hence
inactive exactly on shifts 1 and 3) while the other team's hub has the
complementary activity. -/
theorem auto_winner_and_hub_alternation (ra rb : Int) (p : Phase)
    (hp : p = Phase.shift1 ∨ p = Phase.shift2 ∨ p = Phase.shift3 ∨ p = Phase.shift4) :
    (rb < ra → determine_auto_winner ra rb = Alliance.red) ∧
    (ra < rb → determine_auto_winner ra rb = Alliance.blue) ∧
    (ra = rb → determine_auto_winner ra rb = Alliance.red) ∧
    hub_active_for (determine_auto_winner ra rb)
        (update_hub_activation (determine_auto_winner ra rb) p)
      = (p == Phase.shift2 || p == Phase.shift4) ∧
    hub_active_for (determine_auto_winner ra rb).other
        (update_hub_activation (determine_auto_winner ra rb) p)
      = !(p == Phase.shift2 || p == Phase.shift4) := by
  have halt : ∀ w : Alliance,
      hub_active_for w (update_hub_activation w p)
          = (p == Phase.shift2 || p == Phase.shift4) ∧
      hub_active_for w.other (update_hub_activation w p)
          = !(p == Phase.shift2 || p == Phase.shift4) := by
    intro w
    rcases hp with rfl | rfl | rfl | rfl <;> cases w <;> exact ⟨rfl, rfl⟩
  refine ⟨?_, ?_, ?_, (halt _).1, (halt _).2⟩
  · intro h
    simp [determine_auto_winner, h]
  · intro h
    have h1 : ¬ ra > rb := by omega
    simp [determine_auto_winner, h, h1]
  · intro h
    simp [determine_auto_winner, h]

/-- Witness for C4 at Auto scores 2 : 1 and shift 3. -/
theorem auto_winner_and_hub_alternation_witness :
    ((1 : Int) < 2 → determine_auto_winner 2 1 = Alliance.red) ∧
    ((2 : Int) < 1 → determine_auto_winner 2 1 = Alliance.blue) ∧
    ((2 : Int) = 1 → determine_auto_winner 2 1 = Alliance.red) ∧
    hub_active_for (determine_auto_winner 2 1)
        (update_hub_activation (determine_auto_winner 2 1) Phase.shift3)
      = (Phase.shift3 == Phase.shift2 || Phase.shift3 == Phase.shift4) ∧
    hub_active_for (determine_auto_winner 2 1).other
        (update_hub_activation (determine_auto_winner 2 1) Phase.shift3)
      = !(Phase.shift3 == Phase.shift2 || Phase.shift3 == Phase.shift4) :=
  auto_winner_and_hub_alternation 2 1 Phase.shift3 (Or.inr (Or.inr (Or.inl rfl)))

/-- register_climb changes only the chosen alliance's occupancy list, and
that list either stays unchanged (id already present) or gets the id
appended. -/
theorem occupants_register (s : FieldState) (b : Alliance) (i : Nat) (a : Alliance) :
    occupants_of (register_climb s b i) a
      = if b = a then
          (if i ∈ occupants_of s a then occupants_of s a
            else occupants_of s a ++ [i])
        else occupants_of s a := by
  cases a <;> cases b <;> simp [register_climb, occupants_of] <;> split_ifs <;> rfl

/-- Unfolding ids_of over a cons. -/
theorem ids_of_cons (a : Alliance) (op : Alliance × Nat)
    (rest : List (Alliance × Nat)) :
    ids_of a (op :: rest)
      = if op.1 = a then op.2 :: ids_of a rest else ids_of a rest := by
  by_cases h : op.1 = a <;> simp [ids_of, h]

/-- Every occupant after a sequence of registrations was either already an
occupant or was registered by the sequence. -/
theorem apply_registers_mem (a : Alliance) :
    ∀ (ops : List (Alliance × Nat)) (s : FieldState) (x : Nat),
      x ∈ occupants_of (apply_registers ops s) a →
      x ∈ occupants_of s a ∨ x ∈ ids_of a ops := by
  intro ops
  induction ops with
  | nil =>
      intro s x hx
      exact Or.inl hx
  | cons op rest ih =>
      intro s x hx
      have hx' : x ∈ occupants_of (apply_registers rest (register_climb s op.1 op.2)) a := by
        simpa [apply_registers] using hx
      rcases ih (register_climb s op.1 op.2) x hx' with h | h
      · rw [occupants_register] at h
        by_cases hb : op.1 = a
        · rw [if_pos hb] at h
          split_ifs at h
          · exact Or.inl h
          · rcases List.mem_append.mp h with h' | h'
            · exact Or.inl h'
            · right
              rw [ids_of_cons, if_pos hb, List.mem_singleton.mp h']
              exact List.mem_cons_self _ _
        · rw [if_neg hb] at h
          exact Or.inl h
      · right
        rw [ids_of_cons]
        split_ifs with hb
        · exact List.mem_cons_of_mem _ h
        · exact h

/-- Registration never introduces a duplicate occupant. -/
theorem apply_registers_nodup (a : Alliance) :
    ∀ (ops : List (Alliance × Nat)) (s : FieldState),
      (occupants_of s a).Nodup →
      (occupants_of (apply_registers ops s) a).Nodup := by
  intro ops
  induction ops with
  | nil =>
      intro s h
      exact h
  | cons op rest ih =>
      intro s h
      have hstep : (occupants_of (register_climb s op.1 op.2) a).Nodup := by
        rw [occupants_register]
        split_ifs with hb hmem
        · exact h
        · rw [List.nodup_append]
          refine ⟨h, List.nodup_singleton _, ?_⟩
          intro x hx hx1
          rw [List.mem_singleton] at hx1
          subst hx1
          exact hmem hx
        · exact h
      have := ih (register_climb s op.1 op.2) hstep
      simpa [apply_registers] using this

/-- From an empty tower, a sequence registering at most
MAX_TOWER_OCCUPANTS distinct ids on an alliance leaves that alliance's
occupancy list with at most MAX_TOWER_OCCUPANTS entries. -/
theorem apply_registers_capacity (ops : List (Alliance × Nat)) (a : Alliance)
    (hle : (ids_of a ops).dedup.length ≤ MAX_TOWER_OCCUPANTS) :
    (occupants_of (apply_registers ops initial_field) a).length
      ≤ MAX_TOWER_OCCUPANTS := by
  have hnodup : (occupants_of (apply_registers ops initial_field) a).Nodup :=
    apply_registers_nodup a ops initial_field
      (by cases a <;> simp [occupants_of, initial_field])
  have hsub : occupants_of (apply_registers ops initial_field) a
      ⊆ (ids_of a ops).dedup := by
    intro x hx
    rcases apply_registers_mem a ops initial_field x hx with h | h
    · cases a <;> simp [occupants_of, initial_field] at h
    · exact List.mem_dedup.mpr h
  calc (occupants_of (apply_registers ops initial_field) a).length
      ≤ (ids_of a ops).dedup.length := (hnodup.subperm hsub).length_le
    _ ≤ MAX_TOWER_OCCUPANTS := hle

/-- C7 counterexample: register_climb itself never consults the tower
capacity, so a sequence of register operations with four distinct robot
ids grows an occupancy list to 4 > MAX_TOWER_OCCUPANTS, refuting the claim
that no sequence of can_climb/register_climb operations grows a list
beyond 3 entries. -/
theorem register_climb_exceeds_capacity :
    ((register_climb (register_climb (register_climb (register_climb
          initial_field Alliance.red 0) Alliance.red 1) Alliance.red 2)
          Alliance.red 3).red_tower_occupants).length = 4 ∧
    ¬ (4 ≤ MAX_TOWER_OCCUPANTS) := by
  decide

/-- C7 amended: register_climb is idempotent (a second registration of the
same robot leaves the list unchanged); can_climb returns true iff the
robot is already registered or the list has fewer than
MAX_TOWER_OCCUPANTS entries; and although register_climb itself never
checks capacity, every operation sequence registering at most
MAX_TOWER_OCCUPANTS distinct ids per alliance (as in a match, where an
alliance fields exactly three robots) keeps each occupancy list at
MAX_TOWER_OCCUPANTS entries or fewer. -/
theorem register_climb_idempotent_and_capacity (s : FieldState) (a : Alliance)
    (rid : Nat) :
    register_climb (register_climb s a rid) a rid = register_climb s a rid ∧
    (can_climb s a rid = true ↔
      rid ∈ occupants_of s a ∨
        (occupants_of s a).length < MAX_TOWER_OCCUPANTS) ∧
    (∀ (ops : List (Alliance × Nat)) (al : Alliance),
      (ids_of al ops).dedup.length ≤ MAX_TOWER_OCCUPANTS →
      (occupants_of (apply_registers ops initial_field) al).length
        ≤ MAX_TOWER_OCCUPANTS) := by
  refine ⟨?_, ?_, fun ops al h => apply_registers_capacity ops al h⟩
  · cases a
    case red =>
      by_cases h1 : rid ∈ s.red_tower_occupants <;> simp_all [register_climb]
    case blue =>
      by_cases h1 : rid ∈ s.blue_tower_occupants <;> simp_all [register_climb]
  · cases a
    case red =>
      by_cases h1 : rid ∈ s.red_tower_occupants <;>
        simp_all [can_climb, occupants_of]
    case blue =>
      by_cases h1 : rid ∈ s.blue_tower_occupants <;>
        simp_all [can_climb, occupants_of]

/-- Witness for C7's amended claim: idempotent registration of robot 1,
the can_climb capacity rule on the initial field, and a concrete sequence
registering robots 0 and 1 (robot 0 twice) staying within capacity. -/
theorem register_climb_idempotent_and_capacity_witness :
    register_climb (register_climb initial_field Alliance.red 1) Alliance.red 1
      = register_climb initial_field Alliance.red 1 ∧
    (can_climb initial_field Alliance.red 1 = true ↔
      1 ∈ occupants_of initial_field Alliance.red ∨
        (occupants_of initial_field Alliance.red).length < MAX_TOWER_OCCUPANTS) ∧
    (occupants_of (apply_registers
        [(Alliance.red, 0), (Alliance.red, 1), (Alliance.red, 0), (Alliance.blue, 2)]
        initial_field) Alliance.red).length ≤ MAX_TOWER_OCCUPANTS := by
  obtain ⟨h1, h2, h3⟩ :=
    register_climb_idempotent_and_capacity initial_field Alliance.red 1
  exact ⟨h1, h2,
    h3 [(Alliance.red, 0), (Alliance.red, 1), (Alliance.red, 0), (Alliance.blue, 2)]
      Alliance.red (by decide)⟩

/-- Peeling one Bernoulli trial off the hit count. -/
theorem hit_count_succ (accuracy : ℚ) (draws : Nat → ℚ) (k : Nat) :
    hit_count accuracy draws (k + 1)
      = (if draws 0 < accuracy then 1 else 0)
        + hit_count accuracy (fun i => draws (i + 1)) k := by
  unfold hit_count
  rw [List.range_succ_eq_map, List.countP_cons, List.countP_map]
  have hc : ((fun i => decide (draws i < accuracy)) ∘ Nat.succ)
      = (fun i => decide (draws (i + 1) < accuracy)) := by
    funext i
    simp [Function.comp, Nat.succ_eq_add_one]
  rw [hc]
  by_cases h : draws 0 < accuracy <;> simp [h] <;> omega

/-- The hit count is non-negative. -/
theorem hit_count_nonneg (accuracy : ℚ) (draws : Nat → ℚ) (n : Nat) :
    0 ≤ hit_count accuracy draws n :=
  Int.natCast_nonneg _

/-- The hit count never exceeds the number of trials. -/
theorem hit_count_le (accuracy : ℚ) (draws : Nat → ℚ) (n : Nat) :
    hit_count accuracy draws n ≤ (n : Int) := by
  unfold hit_count
  exact_mod_cast (List.countP_le_length _).trans_eq (List.length_range n)

/-- Closed form of the per-unit shot loop when the robot holds at least as
much fuel as there are trials (which _resolve_shooting guarantees, since
the trial count is capped by fuel_held): the break never fires, every
trial moves one fuel from the robot into flight, and the hit/miss
accumulators advance by the Bernoulli counts. -/
theorem shot_trials_spec (accuracy : ℚ) :
    ∀ (k : Nat) (draws : Nat → ℚ) (s : FieldState) (held hits misses : Int),
      (k : Int) ≤ held →
      shot_trials accuracy draws k s held hits misses
        = ({ s with fuel_in_flight := s.fuel_in_flight + k },
            held - k,
            hits + hit_count accuracy draws k,
            misses + ((k : Int) - hit_count accuracy draws k)) := by
  intro k
  induction k with
  | zero =>
      intro draws s held hits misses hk
      simp [shot_trials, hit_count]
  | succ n ih =>
      intro draws s held hits misses hk
      have hheld : ¬ held ≤ 0 := by omega
      have hone : ¬ (1 : Int) ≤ 0 := by omega
      rw [shot_trials, if_neg hheld,
        ih (fun i => draws (i + 1)) _ _ _ _ (by omega), hit_count_succ]
      by_cases h : draws 0 < accuracy <;>
        simp [h, fuel_shot, hone, Prod.ext_iff, FieldState.mk.injEq] <;>
        refine ⟨by omega, by omega, by omega⟩

/-- C5: for a robot in the shooting or dumping action with positive fuel
and a positive shoot rate, _resolve_shooting resolves exactly
`min(fuel_held, round(rate * TICK_INTERVAL))` units with a floor of one
unit, consuming that much fuel from the robot; each unit is one Bernoulli
trial at the robot's accuracy; every unit passes through fuel_shot, the
hits pass through fuel_scored regardless of hub activity, and the misses
pass through fuel_missed; points (hits * FUEL_ACTIVE_HUB_POINTS) and the
team's fuel-scored credit (hits) are awarded only when the hub is
active. -/
theorem resolve_shooting_spec (s : FieldState) (elapsed : ℚ) (a : Alliance)
    (action : RobotAction) (held : Int) (rate accuracy : ℚ) (hub_active : Bool)
    (draws : Nat → ℚ)
    (hact : action = RobotAction.shooting ∨ action = RobotAction.dumping)
    (hheld : 0 < held) (hrate : 0 < rate) :
    1 ≤ fuel_units_this_tick held rate ∧
    fuel_units_this_tick held rate ≤ held ∧
    0 ≤ hit_count accuracy draws (fuel_units_this_tick held rate).toNat ∧
    hit_count accuracy draws (fuel_units_this_tick held rate).toNat
      ≤ fuel_units_this_tick held rate ∧
    resolve_shooting_robot s elapsed a action held rate accuracy hub_active draws
      = (fuel_missed
          (fuel_scored
            { s with fuel_in_flight :=
                s.fuel_in_flight + fuel_units_this_tick held rate }
            a
            (hit_count accuracy draws (fuel_units_this_tick held rate).toNat)
            elapsed)
          (fuel_units_this_tick held rate
            - hit_count accuracy draws (fuel_units_this_tick held rate).toNat)
          elapsed,
        held - fuel_units_this_tick held rate,
        (if hub_active then
          hit_count accuracy draws (fuel_units_this_tick held rate).toNat
            * FUEL_ACTIVE_HUB_POINTS
          else 0),
        (if hub_active then
          hit_count accuracy draws (fuel_units_this_tick held rate).toNat
          else 0)) := by
  have hmin1 : 1 ≤ fuel_units_this_tick held rate := by
    unfold fuel_units_this_tick
    omega
  have hminheld : fuel_units_this_tick held rate ≤ held := by
    unfold fuel_units_this_tick
    omega
  have htn : ((fuel_units_this_tick held rate).toNat : Int)
      = fuel_units_this_tick held rate := Int.toNat_of_nonneg (by omega)
  refine ⟨hmin1, hminheld, hit_count_nonneg _ _ _, ?_, ?_⟩
  · calc hit_count accuracy draws (fuel_units_this_tick held rate).toNat
        ≤ ((fuel_units_this_tick held rate).toNat : Int) := hit_count_le _ _ _
      _ = fuel_units_this_tick held rate := htn
  · have hcond : ¬¬(action = RobotAction.shooting ∨ action = RobotAction.dumping) :=
      not_not_intro hact
    have h2 : ¬ held ≤ 0 := by omega
    have h3 : ¬ rate ≤ 0 := not_le.mpr hrate
    rw [resolve_shooting_robot, if_neg hcond, if_neg h2, if_neg h3]
    dsimp only
    rw [shot_trials_spec accuracy (fuel_units_this_tick held rate).toNat draws s held 0 0
      (by omega)]
    rw [htn]
    by_cases hhub : hub_active <;> simp [hhub]

/-- Witness for C5: a shooting robot with 4 fuel, rate 6 (3 units per
half-second tick), accuracy 1/2, active hub, and a concrete draw stream
hitting on trials 0 and 2. -/
theorem resolve_shooting_spec_witness :
    1 ≤ fuel_units_this_tick 4 6 ∧
    fuel_units_this_tick 4 6 ≤ 4 ∧
    0 ≤ hit_count (1 / 2) (fun i => if i = 1 then 1 else 0)
      (fuel_units_this_tick 4 6).toNat ∧
    hit_count (1 / 2) (fun i => if i = 1 then 1 else 0)
      (fuel_units_this_tick 4 6).toNat ≤ fuel_units_this_tick 4 6 ∧
    resolve_shooting_robot initial_field 0 Alliance.red RobotAction.shooting
        4 6 (1 / 2) true (fun i => if i = 1 then 1 else 0)
      = (fuel_missed
          (fuel_scored
            { initial_field with fuel_in_flight :=
                initial_field.fuel_in_flight + fuel_units_this_tick 4 6 }
            Alliance.red
            (hit_count (1 / 2) (fun i => if i = 1 then 1 else 0)
              (fuel_units_this_tick 4 6).toNat)
            0)
          (fuel_units_this_tick 4 6
            - hit_count (1 / 2) (fun i => if i = 1 then 1 else 0)
                (fuel_units_this_tick 4 6).toNat)
          0,
        4 - fuel_units_this_tick 4 6,
        (if true then
          hit_count (1 / 2) (fun i => if i = 1 then 1 else 0)
            (fuel_units_this_tick 4 6).toNat * FUEL_ACTIVE_HUB_POINTS
          else 0),
        (if true then
          hit_count (1 / 2) (fun i => if i = 1 then 1 else 0)
            (fuel_units_this_tick 4 6).toNat
          else 0)) :=
  resolve_shooting_spec initial_field 0 Alliance.red RobotAction.shooting
    4 6 (1 / 2) true (fun i => if i = 1 then 1 else 0)
    (Or.inl rfl) (by decide) (by norm_num)

/-- C8 counterexample: the claim says every cycle's total is apportioned
20/15/20 percent to intake/align/shoot, but only the two drive sub-phases
use fixed fractions of the total.  With cycle_time_mean 10 and gauss
sample 20 the drawn total is 20; a nominal fixed shooter then aligns for
the constant 1.5 s, not 15% of 20 = 3 s; intaking 6 fuel at
intake_rate 4 takes 1.5 s, not 20% of 20 = 4 s; and shooting 14 fuel at
shoot_rate 7 takes 2 s, not 20% of 20 = 4 s. -/
theorem cycle_apportionment_counterexample :
    scoring_cycle_time 10 20 = 20 ∧
    align_time_for_shooter ShooterType.single_fixed TurretStatus.nominal = 3 / 2 ∧
    ((3 : ℚ) / 2) ≠ (15 / 100) * 20 ∧
    intake_action_time 6 4 false = 3 / 2 ∧
    ((3 : ℚ) / 2) ≠ (20 / 100) * 20 ∧
    shoot_action_time 14 7 false = 2 ∧
    ((2 : ℚ)) ≠ (20 / 100) * 20 := by
  refine ⟨?_, ?_, ?_, ?_, ?_, ?_, ?_⟩ <;>
    norm_num [scoring_cycle_time, align_time_for_shooter, intake_action_time,
      shoot_action_time, FIXED_ALIGN_TIME, TICK_INTERVAL,
      DEGRADED_INTAKE_SPEED_MULT]

/-- C8 amended: a scoring cycle's total duration is
max(mean/2, gauss sample), hence always at least half the mean and equal
to the sample whenever the sample clears the clamp; the drive-to-fuel and
drive-to-hub sub-phases receive the fixed fractions 25% and 20% of the
total; the intake, align and shoot sub-phases are not fractions of the
total: intake lasts fuel_picked/intake_rate clamped below by one tick,
align lasts the shooter-type alignment constant (FIXED_ALIGN_TIME for
fixed shooters, zero for nominal turrets and dumpers), and shoot lasts
fuel_held/shoot_rate. -/
theorem cycle_timing_spec (mean g total : ℚ) (picked held : Int)
    (intake_rate shoot_rate : ℚ)
    (hpicked : 0 < picked) (hir : 0 < intake_rate) (_hsr : 0 < shoot_rate) :
    mean / 2 ≤ scoring_cycle_time mean g ∧
    (mean / 2 ≤ g → scoring_cycle_time mean g = g) ∧
    drive_to_fuel_time total = (25 / 100) * total ∧
    drive_to_hub_time total = (20 / 100) * total ∧
    intake_action_time picked intake_rate false
      = max ((picked : ℚ) / intake_rate) TICK_INTERVAL ∧
    align_time_for_shooter ShooterType.single_fixed TurretStatus.nominal
      = FIXED_ALIGN_TIME ∧
    align_time_for_shooter ShooterType.single_turret TurretStatus.nominal = 0 ∧
    align_time_for_shooter ShooterType.dumper TurretStatus.nominal = 0 ∧
    shoot_action_time held shoot_rate false = (held : ℚ) / shoot_rate := by
  refine ⟨?_, ?_, ?_, ?_, ?_, rfl, rfl, rfl, rfl⟩
  · rw [scoring_cycle_time, show mean / 2 = mean * (1 / 2) by ring]
    exact le_max_left _ _
  · intro hg
    rw [scoring_cycle_time]
    rw [max_eq_right (by linarith)]
  · rw [drive_to_fuel_time]
    ring
  · rw [drive_to_hub_time]
    ring
  · simp [intake_action_time, hir, hpicked]

/-- Witness for C8's amended claim at mean 10, gauss sample 20, total 20,
6 fuel picked at intake rate 4, 14 fuel shot at rate 7. -/
theorem cycle_timing_spec_witness :
    (10 : ℚ) / 2 ≤ scoring_cycle_time 10 20 ∧
    ((10 : ℚ) / 2 ≤ 20 → scoring_cycle_time 10 20 = 20) ∧
    drive_to_fuel_time 20 = (25 / 100) * 20 ∧
    drive_to_hub_time 20 = (20 / 100) * 20 ∧
    intake_action_time 6 4 false = max (((6 : Int) : ℚ) / 4) TICK_INTERVAL ∧
    align_time_for_shooter ShooterType.single_fixed TurretStatus.nominal
      = FIXED_ALIGN_TIME ∧
    align_time_for_shooter ShooterType.single_turret TurretStatus.nominal = 0 ∧
    align_time_for_shooter ShooterType.dumper TurretStatus.nominal = 0 ∧
    shoot_action_time 14 7 false = ((14 : Int) : ℚ) / 7 :=
  cycle_timing_spec 10 20 20 6 14 4 7 (by decide) (by norm_num) (by norm_num)

end FRCSim
